import Mathlib

/-!
Verification development for `escpos/network.py` (pyescpos).

The file shallowly embeds the two components of the module:

* the `backoff` retry decorator together with the `RetrySettings`
  configuration class, and
* the `NetworkConnection` class (socket lifecycle, readiness checks,
  raw write/read primitives, destructor).

Python exceptions are modelled by explicit error values; the mutable
`self` object and the call counters of the OS oracles are threaded as an
explicit state.  Machine behaviour of the OS socket layer (results of
`select`, `send`, `recv`, `connect`, `shutdown`) is supplied by an
environment of oracle functions indexed by call number.
-/

/-- Exception kinds relevant to the module.  `nonReadableSocketError` and
`nonWritableSocketError` come from `escpos.exceptions`; `socketError` is
`socket.error` (`OSError`); `runtimeError` and `valueError` are the Python
builtins.  Membership of a raised exception in the `RetrySettings.exceptions`
tuple is modelled as list membership of its kind: none of these classes is a
subclass of another (the two library classes cannot be superclasses of the
builtins, and `RuntimeError` is not an `OSError`), so `isinstance` against
the tuple coincides with membership of the kind. -/
inductive ExcKind where
  | nonReadableSocketError
  | nonWritableSocketError
  | socketError
  | runtimeError
  | valueError
deriving DecidableEq

/-- The fields of the `RetrySettings` configuration class: `max_tries`,
`delay`, `backoff` and the tuple of retryable exception classes. -/
structure Settings where
  max_tries : Int
  delay : Int
  backoff : Int
  exceptions : List ExcKind
deriving DecidableEq

/-- The concrete `RetrySettings` object of the source: 3 tries, delay 3,
backoff factor 2, retrying `NonReadableSocketError`,
`NonWritableSocketError` and `socket.error`. -/
def RetrySettings : Settings :=
  { max_tries := 3
  , delay := 3
  , backoff := 2
  , exceptions := [ExcKind.nonReadableSocketError,
      ExcKind.nonWritableSocketError, ExcKind.socketError] }

/-- Result of one invocation of the wrapped operation: a normal return or a
raised exception of some kind. -/
inductive Outcome (α : Type) where
  | ok (v : α)
  | err (k : ExcKind)
deriving DecidableEq

/-- Result of a whole run of the retry loop `inner`: a value returned, an
exception propagated, or the `None` Python returns when the `while` loop is
never entered (only reachable when `max_tries ≤ 0`, which construction
forbids). -/
inductive RunOutcome (α : Type) where
  | ok (v : α)
  | raised (k : ExcKind)
  | noneReturn
deriving DecidableEq

/-- The `while mtries > 0` loop of `inner` inside `backoff`.  The wrapped
operation is modelled as a function `f` from the attempt number (1-based)
to its outcome.  Returns the run outcome, the number of invocations of `f`
made, and the list of sleep durations passed to `time.sleep`, in order.
`mtries` is the remaining-tries counter, `mdelay` the current delay. -/
def backoffLoop (excs : List ExcKind) (bo : Int) (f : Nat → Outcome α) :
    Nat → Nat → Int → RunOutcome α × Nat × List Int
  | _, 0, _ => (RunOutcome.noneReturn, 0, [])
  | attempt, mtries + 1, mdelay =>
    match f attempt with
    | Outcome.ok v => (RunOutcome.ok v, 1, [])
    | Outcome.err k =>
      if k ∈ excs then
        -- mtries -= 1; if mtries <= 0: raise
        if mtries = 0 then
          (RunOutcome.raised k, 1, [])
        else
          -- time.sleep(mdelay); mdelay *= settings.backoff
          let rest := backoffLoop excs bo f (attempt + 1) mtries (mdelay * bo)
          (rest.1, rest.2.1 + 1, mdelay :: rest.2.2)
      else
        -- exception not matched by the except clause: propagates at once
        (RunOutcome.raised k, 1, [])

/-- A full run of the decorated function: `mtries, mdelay` start from the
settings (`max_tries` is a Python int; a non-positive value never enters
the loop, hence `Int.toNat`). -/
def backoffRun (s : Settings) (f : Nat → Outcome α) :
    RunOutcome α × Nat × List Int :=
  backoffLoop s.exceptions s.backoff f 1 s.max_tries.toNat s.delay

/-- The `backoff(settings)` decorator factory: validates the settings and
either raises `ValueError` (before any wrapped operation exists, let alone
is invoked) or returns the decorator, i.e. the function mapping a wrapped
operation to its retry-loop run. -/
def backoff (s : Settings) :
    Except ExcKind ((Nat → Outcome α) → RunOutcome α × Nat × List Int) :=
  if s.max_tries ≤ 0 then Except.error ExcKind.valueError
  else if s.delay ≤ 0 then Except.error ExcKind.valueError
  else if s.backoff ≤ 1 then Except.error ExcKind.valueError
  else Except.ok (fun f => backoffRun s f)

/-- The geometric delay sequence `d, d*bo, d*bo^2, ...` of length `n`. -/
def geomSleeps (d bo : Int) (n : Nat) : List Int :=
  (List.range n).map (fun j => d * bo ^ j)

/-- The attribute fields of a `NetworkConnection` object.  OS socket handles
are modelled by identities `Nat`; `socket = none` is Python `self.socket is
None` (disconnected). -/
structure NetworkConnection where
  socket : Option Nat
  host_name : String
  port_number : Int
  address_family : Nat
  socket_type : Nat
  select_timeout : Int
  read_buffer_size : Nat
deriving DecidableEq

/-- The diagnostic context interpolated into the exception message by
`_raise_with_details`: the current socket, host, port, address family and
socket type of the connection. -/
structure Details where
  socket : Option Nat
  host : String
  port : Int
  family : Nat
  sockType : Nat
deriving DecidableEq

/-- Build the `_raise_with_details` context from the current object. -/
def mkDetails (c : NetworkConnection) : Details :=
  { socket := c.socket
  , host := c.host_name
  , port := c.port_number
  , family := c.address_family
  , sockType := c.socket_type }

/-- The exceptions that the connection methods can raise:
`NonWritableSocketError` / `NonReadableSocketError` (raised by
`_raise_with_details`, carrying the context), `RuntimeError` (the default
`exctype` of `_raise_with_details`, used by `_raw_write` for the broken
connection), and an OS-level `socket.error` (from `connect`, `shutdown`,
`recv`, ...). -/
inductive NetError where
  | nonWritable (d : Details)
  | nonReadable (d : Details)
  | runtimeErr (d : Details)
  | socketErr
deriving DecidableEq

/-- The exception kind of a raised `NetError`, for the `except` clause of
the retry loop. -/
def NetError.kind : NetError → ExcKind
  | NetError.nonWritable _ => ExcKind.nonWritableSocketError
  | NetError.nonReadable _ => ExcKind.nonReadableSocketError
  | NetError.runtimeErr _ => ExcKind.runtimeError
  | NetError.socketErr => ExcKind.socketError

/-- Explicit program state: the mutable connection object, the next fresh
socket identity, per-oracle call counters, and instrumentation (count of
completed `_reconnect` calls, the socket argument of each `select` poll in
order, and the cumulative number of bytes accepted by `send` calls). -/
structure St where
  conn : NetworkConnection
  nextId : Nat
  nShut : Nat
  nConn : Nat
  nPollW : Nat
  nPollR : Nat
  nSend : Nat
  nRecv : Nat
  reconnects : Nat
  pollLog : List (Option Nat)
  sentTotal : Nat
deriving DecidableEq

/-- OS behaviour oracles, indexed by call number: whether the i-th
`shutdown`/`close` pair and the i-th `connect` succeed, whether the i-th
writability / readability `select` reports ready, how many bytes the i-th
`send` accepts (given the length passed), whether the i-th `recv` succeeds
and what bytes it delivers (given the buffer size passed). -/
structure NetEnv where
  shutdownOk : Nat → Bool
  connectOk : Nat → Bool
  writableAt : Nat → Bool
  readableAt : Nat → Bool
  sendAt : Nat → Nat → Nat
  recvOk : Nat → Bool
  recvAt : Nat → Nat → List Nat

/-- Result of running a method: a returned value or a raised `NetError`,
together with the state at that moment (Python exceptions do not undo
prior mutations of `self`). -/
inductive Res (α : Type) where
  | ok (a : α) (s : St)
  | err (e : NetError) (s : St)
deriving DecidableEq

/-- `_raw_release`: if connected, `shutdown` + `close` the handle and clear
it; a failing shutdown/close raises `socket.error` and leaves the handle
set.  No-op when disconnected. -/
def raw_release (env : NetEnv) (s : St) : Res Unit :=
  match s.conn.socket with
  | none => Res.ok () s
  | some _ =>
    if env.shutdownOk s.nShut then
      Res.ok () { s with nShut := s.nShut + 1
                       , conn := { s.conn with socket := none } }
    else
      Res.err NetError.socketErr { s with nShut := s.nShut + 1 }

/-- `_raw_catch`: assign a brand-new socket object to `self.socket`
(`socket.socket(family, type)` plus `TCP_NODELAY`), then `connect` it; a
failing connect raises `socket.error`, with the fresh (unconnected) handle
already stored. -/
def raw_catch (env : NetEnv) (s : St) : Res Unit :=
  let s1 := { s with conn := { s.conn with socket := some s.nextId }
                   , nextId := s.nextId + 1 }
  if env.connectOk s1.nConn then
    Res.ok () { s1 with nConn := s1.nConn + 1 }
  else
    Res.err NetError.socketErr { s1 with nConn := s1.nConn + 1 }

/-- `_reconnect`: `_raw_release()` then `_raw_catch()`.  The instrumentation
counter `reconnects` counts completed reconnects. -/
def reconnect (env : NetEnv) (s : St) : Res Unit :=
  match raw_release env s with
  | Res.err e s1 => Res.err e s1
  | Res.ok _ s1 =>
    match raw_catch env s1 with
    | Res.err e s2 => Res.err e s2
    | Res.ok _ s2 => Res.ok () { s2 with reconnects := s2.reconnects + 1 }

/-- One `select.select([], [sock], [sock], timeout)` call: returns whether
the writable list was non-empty, logging the polled socket. -/
def pollWritable (env : NetEnv) (s : St) : Bool × St :=
  (env.writableAt s.nPollW,
    { s with nPollW := s.nPollW + 1
           , pollLog := s.pollLog ++ [s.conn.socket] })

/-- One `select.select([sock], [], [sock], timeout)` call: returns whether
the readable list was non-empty, logging the polled socket. -/
def pollReadable (env : NetEnv) (s : St) : Bool × St :=
  (env.readableAt s.nPollR,
    { s with nPollR := s.nPollR + 1
           , pollLog := s.pollLog ++ [s.conn.socket] })

/-- `_assert_writable`: reconnect if disconnected, then the unrolled
`for tries in range(2)` loop — poll, break when writable, else reconnect —
whose `else:` clause raises `NonWritableSocketError` with details when
neither poll reported writable. -/
def assert_writable (env : NetEnv) (s0 : St) : Res Unit :=
  match (if s0.conn.socket = none then reconnect env s0 else Res.ok () s0) with
  | Res.err e s => Res.err e s
  | Res.ok _ s1 =>
    let p0 := pollWritable env s1
    if p0.1 then Res.ok () p0.2
    else
      match reconnect env p0.2 with
      | Res.err e s => Res.err e s
      | Res.ok _ s2 =>
        let p1 := pollWritable env s2
        if p1.1 then Res.ok () p1.2
        else
          match reconnect env p1.2 with
          | Res.err e s => Res.err e s
          | Res.ok _ s3 => Res.err (NetError.nonWritable (mkDetails s3.conn)) s3

/-- `_assert_readable`: symmetric to `_assert_writable`, polling
readability and raising `NonReadableSocketError`. -/
def assert_readable (env : NetEnv) (s0 : St) : Res Unit :=
  match (if s0.conn.socket = none then reconnect env s0 else Res.ok () s0) with
  | Res.err e s => Res.err e s
  | Res.ok _ s1 =>
    let p0 := pollReadable env s1
    if p0.1 then Res.ok () p0.2
    else
      match reconnect env p0.2 with
      | Res.err e s => Res.err e s
      | Res.ok _ s2 =>
        let p1 := pollReadable env s2
        if p1.1 then Res.ok () p1.2
        else
          match reconnect env p1.2 with
          | Res.err e s => Res.err e s
          | Res.ok _ s3 => Res.err (NetError.nonReadable (mkDetails s3.conn)) s3

/-- The `while totalsent < len(data)` loop of `_raw_write`: each iteration
sends the remaining slice, raising `RuntimeError` with details when `send`
returned 0, else adding the sent count to `totalsent`.  `dataLen` is
`len(data)`. -/
def writeLoop (env : NetEnv) (dataLen : Nat) (totalsent : Nat) (s : St) :
    Res Unit :=
  if _h : totalsent < dataLen then
    if _hz : env.sendAt s.nSend (dataLen - totalsent) = 0 then
      -- self._raise_with_details('socket connection broken')
      Res.err (NetError.runtimeErr (mkDetails s.conn)) { s with nSend := s.nSend + 1 }
    else
      writeLoop env dataLen (totalsent + env.sendAt s.nSend (dataLen - totalsent))
        { s with nSend := s.nSend + 1
               , sentTotal := s.sentTotal + env.sendAt s.nSend (dataLen - totalsent) }
  else Res.ok () s
termination_by dataLen - totalsent
decreasing_by omega

/-- `_raw_write`: `_assert_writable()` then the send loop. -/
def raw_write (env : NetEnv) (dataLen : Nat) (s : St) : Res Unit :=
  match assert_writable env s with
  | Res.err e s1 => Res.err e s1
  | Res.ok _ s1 => writeLoop env dataLen 0 s1

/-- The `try:` body of `_raw_read`: `_assert_readable()` then one
`recv(self.read_buffer_size)` call, which may itself raise. -/
def raw_read_body (env : NetEnv) (s : St) : Res (List Nat) :=
  match assert_readable env s with
  | Res.err e s1 => Res.err e s1
  | Res.ok _ s1 =>
    let s2 := { s1 with nRecv := s1.nRecv + 1 }
    if env.recvOk s1.nRecv then
      Res.ok (env.recvAt s1.nRecv s1.conn.read_buffer_size) s2
    else
      Res.err NetError.socketErr s2

/-- `_raw_read`: the body under a bare `except:` that returns `''`. -/
def raw_read (env : NetEnv) (s : St) : Res (List Nat) :=
  match raw_read_body env s with
  | Res.ok v s1 => Res.ok v s1
  | Res.err _ s1 => Res.ok [] s1

/-- `__del__`: calls `self._raw_release()`.  Per Python's documented
destructor semantics, an exception raised inside `__del__` is ignored by
the interpreter rather than propagated. -/
def del_conn (env : NetEnv) (s : St) : Res Unit :=
  match raw_release env s with
  | Res.ok _ s1 => Res.ok () s1
  | Res.err _ s1 => Res.ok () s1

/-- The instrumented reconnect count of a result state. -/
def reconnectsOf : Res α → Nat
  | Res.ok _ s => s.reconnects
  | Res.err _ s => s.reconnects

/-- The final state of a result. -/
def stateOf : Res α → St
  | Res.ok _ s => s
  | Res.err _ s => s

/-- The kind of the raised exception, when the result is a raise. -/
def kindOf : Res α → Option ExcKind
  | Res.ok _ _ => none
  | Res.err e _ => some e.kind

/-- A concrete connected connection object (e.g. created for
`"printer:9100"` with the defaults `AF_INET = 2`, `SOCK_STREAM = 1`,
timeout 1, buffer 4096, holding handle 0). -/
def connC : NetworkConnection :=
  { socket := some 0
  , host_name := "printer"
  , port_number := 9100
  , address_family := 2
  , socket_type := 1
  , select_timeout := 1
  , read_buffer_size := 4096 }

/-- Initial state around a connection object: fresh identities start above
any held handle, all call counters and instrumentation at zero. -/
def initSt (c : NetworkConnection) : St :=
  { conn := c
  , nextId := 1
  , nShut := 0
  , nConn := 0
  , nPollW := 0
  , nPollR := 0
  , nSend := 0
  , nRecv := 0
  , reconnects := 0
  , pollLog := []
  , sentTotal := 0 }

/-- Environment in which every readiness poll reports not-ready while
releases and connects succeed. -/
def envNeverReady : NetEnv :=
  { shutdownOk := fun _ => true
  , connectOk := fun _ => true
  , writableAt := fun _ => false
  , readableAt := fun _ => false
  , sendAt := fun _ _ => 0
  , recvOk := fun _ => true
  , recvAt := fun _ _ => [] }

/-- Environment in which polls report ready but every `send` accepts zero
bytes (peer has closed the write side). -/
def envZeroSend : NetEnv :=
  { shutdownOk := fun _ => true
  , connectOk := fun _ => true
  , writableAt := fun _ => true
  , readableAt := fun _ => true
  , sendAt := fun _ _ => 0
  , recvOk := fun _ => true
  , recvAt := fun _ _ => [] }

/-- Environment in which polls report ready and every `send` accepts one
byte per call. -/
def envByteSend : NetEnv :=
  { shutdownOk := fun _ => true
  , connectOk := fun _ => true
  , writableAt := fun _ => true
  , readableAt := fun _ => true
  , sendAt := fun _ _ => 1
  , recvOk := fun _ => true
  , recvAt := fun _ _ => [7, 7] }

/-- Environment in which the `shutdown` of a release raises. -/
def envShutFail : NetEnv :=
  { shutdownOk := fun _ => false
  , connectOk := fun _ => true
  , writableAt := fun _ => true
  , readableAt := fun _ => true
  , sendAt := fun _ _ => 1
  , recvOk := fun _ => false
  , recvAt := fun _ _ => [] }

/-- An operation that fails with `socket.error` on every invocation. -/
def alwaysSocketError : Nat → Outcome Nat := fun _ => Outcome.err ExcKind.socketError

/-- An operation that fails with `RuntimeError` on its first invocation. -/
def alwaysRuntimeError : Nat → Outcome Nat := fun _ => Outcome.err ExcKind.runtimeError

/-- An operation that fails retryably twice and then succeeds. -/
def failTwiceThenOk : Nat → Outcome Nat := fun i =>
  if i < 3 then Outcome.err ExcKind.socketError else Outcome.ok 42

/-- A `RetrySettings`-shaped configuration violating `max_tries > 0`. -/
def badSettings : Settings :=
  { max_tries := 0, delay := 3, backoff := 2, exceptions := [] }

/-- The retry loop invokes the operation at most `mtries` times. -/
theorem backoffLoop_calls_le (excs : List ExcKind) (bo : Int)
    (f : Nat → Outcome α) :
    ∀ m a d, (backoffLoop excs bo f a m d).2.1 ≤ m := by
  intro m
  induction m with
  | zero => intro a d; simp [backoffLoop]
  | succ n ih =>
    intro a d
    simp only [backoffLoop]
    cases hfa : f a with
    | ok v => simp
    | err k =>
      by_cases hk : k ∈ excs
      · simp only [hk, if_true]
        by_cases hn : n = 0
        · simp [hn]
        · simp only [hn, if_false]
          have := ih (a + 1) (d * bo)
          omega
      · simp [hk]

/-- If the operation fails with a retryable kind on every attempt of the
window `[a, a + m)`, the loop makes exactly `m` invocations and re-raises
the failure of the last attempt. -/
theorem backoffLoop_fail_window (excs : List ExcKind) (bo : Int)
    (f : Nat → Outcome α) :
    ∀ m a d, 1 ≤ m →
      (∀ i, a ≤ i → i < a + m → ∃ k, f i = Outcome.err k ∧ k ∈ excs) →
      ∃ k sl, backoffLoop excs bo f a m d = (RunOutcome.raised k, m, sl) ∧
        f (a + m - 1) = Outcome.err k := by
  intro m
  induction m with
  | zero => intro a d hm; omega
  | succ n ih =>
    intro a d _ hw
    obtain ⟨k, hk, hkm⟩ := hw a (le_refl a) (by omega)
    by_cases hn : n = 0
    · subst hn
      refine ⟨k, [], ?_, ?_⟩
      · simp [backoffLoop, hk, hkm]
      · simpa using hk
    · have hw' : ∀ i, a + 1 ≤ i → i < (a + 1) + n →
          ∃ k, f i = Outcome.err k ∧ k ∈ excs := by
        intro i h1 h2
        exact hw i (by omega) (by omega)
      obtain ⟨k', sl', heq, hlast⟩ := ih (a + 1) (d * bo) (by omega) hw'
      refine ⟨k', d :: sl', ?_, ?_⟩
      · simp [backoffLoop, hk, hkm, hn, heq]
      · have : a + 1 + n - 1 = a + (n + 1) - 1 := by omega
        rwa [this] at hlast

/-- If the operation fails with retryable kinds before attempt `t` and
succeeds at attempt `t`, and `t` falls inside the window of remaining
tries, the loop returns the success value after exactly `t - a + 1`
invocations. -/
theorem backoffLoop_succ_at (excs : List ExcKind) (bo : Int)
    (f : Nat → Outcome α) :
    ∀ m a d t v, a ≤ t → t < a + m →
      (∀ i, a ≤ i → i < t → ∃ k, f i = Outcome.err k ∧ k ∈ excs) →
      f t = Outcome.ok v →
      ∃ sl, backoffLoop excs bo f a m d = (RunOutcome.ok v, t - a + 1, sl) := by
  intro m
  induction m with
  | zero => intro a d t v h1 h2; omega
  | succ n ih =>
    intro a d t v hat htm hw hok
    by_cases hta : t = a
    · subst hta
      refine ⟨[], ?_⟩
      simp [backoffLoop, hok]
    · have halt : a < t := by omega
      obtain ⟨k, hk, hkm⟩ := hw a (le_refl a) halt
      have hn : n ≠ 0 := by omega
      have hw' : ∀ i, a + 1 ≤ i → i < t →
          ∃ k, f i = Outcome.err k ∧ k ∈ excs := by
        intro i h1 h2
        exact hw i (by omega) h2
      obtain ⟨sl, heq⟩ := ih (a + 1) (d * bo) t v (by omega) (by omega) hw' hok
      refine ⟨d :: sl, ?_⟩
      simp only [backoffLoop, hk, hkm, if_true, hn, if_false, heq]
      have : t - (a + 1) + 1 + 1 = t - a + 1 := by omega
      simp [this]

/-- Prepending the current delay to the geometric sequence of the doubled
base gives the geometric sequence of the original base. -/
theorem geomSleeps_cons (d bo : Int) (n : Nat) :
    d :: geomSleeps (d * bo) bo n = geomSleeps d bo (n + 1) := by
  unfold geomSleeps
  rw [List.range_succ_eq_map]
  simp only [List.map_cons, List.map_map, pow_zero, mul_one]
  congr 1
  apply List.map_congr_left
  intro j _
  simp [Function.comp, pow_succ]
  ring

/-- The sleeps recorded by the retry loop always form the geometric
sequence based at the current delay. -/
theorem backoffLoop_sleeps_geom (excs : List ExcKind) (bo : Int)
    (f : Nat → Outcome α) :
    ∀ m a d, ∃ n, (backoffLoop excs bo f a m d).2.2 = geomSleeps d bo n := by
  intro m
  induction m with
  | zero => intro a d; exact ⟨0, by simp [backoffLoop, geomSleeps]⟩
  | succ n ih =>
    intro a d
    simp only [backoffLoop]
    cases hfa : f a with
    | ok v => exact ⟨0, by simp [geomSleeps]⟩
    | err k =>
      by_cases hk : k ∈ excs
      · simp only [hk, if_true]
        by_cases hn : n = 0
        · exact ⟨0, by simp [hn, geomSleeps]⟩
        · simp only [hn, if_false]
          obtain ⟨n', hgeom⟩ := ih (a + 1) (d * bo)
          exact ⟨n' + 1, by simp [hgeom, geomSleeps_cons]⟩
      · exact ⟨0, by simp [hk, geomSleeps]⟩

/-- An operation whose first invocation raises a non-retryable kind is
invoked once: the failure propagates with no sleep. -/
theorem backoff_nonretry (s : Settings) (f : Nat → Outcome α) (k : ExcKind)
    (h1 : f 1 = Outcome.err k) (h2 : k ∉ s.exceptions)
    (h3 : 0 < s.max_tries.toNat) :
    backoffRun s f = (RunOutcome.raised k, 1, []) := by
  unfold backoffRun
  obtain ⟨m, hm⟩ : ∃ m, s.max_tries.toNat = m + 1 :=
    ⟨s.max_tries.toNat - 1, by omega⟩
  rw [hm]
  simp [backoffLoop, h1, h2]

/-- Full trace of `_assert_writable` on a connected object when both polls
report not-ready and every release/connect succeeds: a reconnect follows
each failed poll (two in total), and `NonWritableSocketError` is raised
carrying the connection's details with the second fresh handle held. -/
theorem assert_writable_bothfail (env : NetEnv) (st : St) (a : Nat)
    (hsock : st.conn.socket = some a)
    (hw0 : env.writableAt st.nPollW = false)
    (hw1 : env.writableAt (st.nPollW + 1) = false)
    (hs0 : env.shutdownOk st.nShut = true)
    (hs1 : env.shutdownOk (st.nShut + 1) = true)
    (hc0 : env.connectOk st.nConn = true)
    (hc1 : env.connectOk (st.nConn + 1) = true) :
    assert_writable env st =
      Res.err
        (NetError.nonWritable
          (mkDetails { st.conn with socket := some (st.nextId + 1) }))
        { st with conn := { st.conn with socket := some (st.nextId + 1) }
                , nextId := st.nextId + 2
                , nShut := st.nShut + 2
                , nConn := st.nConn + 2
                , nPollW := st.nPollW + 2
                , reconnects := st.reconnects + 2
                , pollLog := st.pollLog ++ [some a, some st.nextId] } := by
  simp [assert_writable, reconnect, raw_release, raw_catch, pollWritable,
    hsock, hw0, hw1, hs0, hs1, hc0, hc1]

/-- Full trace of `_assert_readable` on a connected object when both polls
report not-ready and every release/connect succeeds: symmetric to
`assert_writable_bothfail`, raising `NonReadableSocketError`. -/
theorem assert_readable_bothfail (env : NetEnv) (st : St) (a : Nat)
    (hsock : st.conn.socket = some a)
    (hr0 : env.readableAt st.nPollR = false)
    (hr1 : env.readableAt (st.nPollR + 1) = false)
    (hs0 : env.shutdownOk st.nShut = true)
    (hs1 : env.shutdownOk (st.nShut + 1) = true)
    (hc0 : env.connectOk st.nConn = true)
    (hc1 : env.connectOk (st.nConn + 1) = true) :
    assert_readable env st =
      Res.err
        (NetError.nonReadable
          (mkDetails { st.conn with socket := some (st.nextId + 1) }))
        { st with conn := { st.conn with socket := some (st.nextId + 1) }
                , nextId := st.nextId + 2
                , nShut := st.nShut + 2
                , nConn := st.nConn + 2
                , nPollR := st.nPollR + 2
                , reconnects := st.reconnects + 2
                , pollLog := st.pollLog ++ [some a, some st.nextId] } := by
  simp [assert_readable, reconnect, raw_release, raw_catch, pollReadable,
    hsock, hr0, hr1, hs0, hs1, hc0, hc1]

/-- When every `send` accepts a positive number of the remaining bytes,
the send loop terminates normally having transmitted exactly the
outstanding bytes. -/
theorem writeLoop_complete (env : NetEnv) (dataLen : Nat)
    (hsend : ∀ i r, 0 < r → 0 < env.sendAt i r ∧ env.sendAt i r ≤ r) :
    ∀ fuel totalsent s, dataLen - totalsent ≤ fuel → totalsent ≤ dataLen →
      ∃ s', writeLoop env dataLen totalsent s = Res.ok () s' ∧
        s'.sentTotal = s.sentTotal + (dataLen - totalsent) := by
  intro fuel
  induction fuel with
  | zero =>
    intro t s h1 h2
    have hnlt : ¬ t < dataLen := by omega
    rw [writeLoop, dif_neg hnlt]
    exact ⟨s, rfl, by omega⟩
  | succ n ih =>
    intro t s h1 h2
    by_cases hlt : t < dataLen
    · have hp := hsend s.nSend (dataLen - t) (by omega)
      have hz : ¬ env.sendAt s.nSend (dataLen - t) = 0 := by omega
      rw [writeLoop, dif_pos hlt, dif_neg hz]
      obtain ⟨s', heq, hsent⟩ :=
        ih (t + env.sendAt s.nSend (dataLen - t))
          { s with nSend := s.nSend + 1
                 , sentTotal := s.sentTotal + env.sendAt s.nSend (dataLen - t) }
          (by omega) (by omega)
      refine ⟨s', heq, ?_⟩
      simp only [] at hsent
      omega
    · rw [writeLoop, dif_neg hlt]
      exact ⟨s, rfl, by omega⟩

/-- C3: with `max_tries = N > 0`, an operation failing with a fixed
retryable kind on every invocation is invoked exactly N times and the
propagated exception is of that kind; in general the operation is invoked
at most N times, and when it first succeeds at attempt `t` (failing
retryably before), the number of invocations is exactly `min N t`. -/
theorem claim_C3_retry_bound (s : Settings) (f : Nat → Outcome α)
    (k : ExcKind) (hN : 0 < s.max_tries.toNat) :
    ((∀ i, f i = Outcome.err k) → k ∈ s.exceptions →
      (backoffRun s f).1 = RunOutcome.raised k ∧
      (backoffRun s f).2.1 = s.max_tries.toNat) ∧
    (backoffRun s f).2.1 ≤ s.max_tries.toNat ∧
    (∀ t v, 1 ≤ t → f t = Outcome.ok v →
      (∀ i, 1 ≤ i → i < t → ∃ k', f i = Outcome.err k' ∧ k' ∈ s.exceptions) →
      (backoffRun s f).2.1 = min s.max_tries.toNat t) := by
  refine ⟨?_, ?_, ?_⟩
  · intro hfail hk
    obtain ⟨k', sl, heq, hlast⟩ :=
      backoffLoop_fail_window s.exceptions s.backoff f s.max_tries.toNat 1
        s.delay (by omega) (fun i _ _ => ⟨k, hfail i, hk⟩)
    have hkk : k' = k := by
      have h2 := (hfail (1 + s.max_tries.toNat - 1)).symm.trans hlast
      injection h2 with h3
      exact h3.symm
    subst hkk
    unfold backoffRun
    rw [heq]
    exact ⟨rfl, rfl⟩
  · exact backoffLoop_calls_le s.exceptions s.backoff f s.max_tries.toNat 1
      s.delay
  · intro t v ht hok hw
    by_cases hcase : t ≤ s.max_tries.toNat
    · obtain ⟨sl, heq⟩ :=
        backoffLoop_succ_at s.exceptions s.backoff f s.max_tries.toNat 1
          s.delay t v ht (by omega) hw hok
      unfold backoffRun
      rw [heq]
      simp only []
      omega
    · obtain ⟨k', sl, heq, _⟩ :=
        backoffLoop_fail_window s.exceptions s.backoff f s.max_tries.toNat 1
          s.delay (by omega) (fun i h1 h2 => hw i h1 (by omega))
      unfold backoffRun
      rw [heq]
      simp only []
      omega

/-- Witness for C3 on concrete inputs: three attempts are made with the
default settings by an operation always failing with `socket.error`, and
the final exception is of that kind. -/
theorem claim_C3_retry_bound_witness :
    (backoffRun RetrySettings alwaysSocketError).1 =
      RunOutcome.raised ExcKind.socketError ∧
    (backoffRun RetrySettings alwaysSocketError).2.1 = 3 := by
  have h :=
    (claim_C3_retry_bound RetrySettings alwaysSocketError ExcKind.socketError
      (by decide)).1 (fun i => rfl) (by decide)
  exact ⟨h.1, h.2⟩

/-- C4: an operation whose failure kind is outside the retryable set is
invoked exactly once: the failure propagates immediately, with no sleep
recorded and no further attempt. -/
theorem claim_C4_nonretryable_once (s : Settings) (f : Nat → Outcome α)
    (k : ExcKind) (hN : 0 < s.max_tries.toNat)
    (h1 : f 1 = Outcome.err k) (h2 : k ∉ s.exceptions) :
    backoffRun s f = (RunOutcome.raised k, 1, []) :=
  backoff_nonretry s f k h1 h2 hN

/-- Witness for C4 on concrete inputs: a `RuntimeError`-raising operation
under the default settings is invoked once and propagates at once. -/
theorem claim_C4_nonretryable_once_witness :
    backoffRun RetrySettings alwaysRuntimeError =
      (RunOutcome.raised ExcKind.runtimeError, 1, []) :=
  claim_C4_nonretryable_once RetrySettings alwaysRuntimeError
    ExcKind.runtimeError (by decide) rfl (by decide)

/-- C5: the sleep durations recorded by any run of the retry loop are
exactly `delay, delay*backoff, delay*backoff^2, ...`. -/
theorem claim_C5_backoff_growth (s : Settings) (f : Nat → Outcome α) :
    (backoffRun s f).2.2 =
      geomSleeps s.delay s.backoff (backoffRun s f).2.2.length := by
  obtain ⟨n, hn⟩ :=
    backoffLoop_sleeps_geom s.exceptions s.backoff f s.max_tries.toNat 1
      s.delay
  unfold backoffRun
  rw [hn]
  congr 1
  simp [geomSleeps]

/-- C8: `backoff` validates `max_tries > 0`, `delay > 0`, `backoff > 1`:
an invalid configuration raises `ValueError` at decoration time, before
any wrapped operation exists to be invoked, while a valid configuration
yields the retry wrapper without error. -/
theorem claim_C8_policy_validation (α : Type) :
    (∀ (s : Settings), s.max_tries ≤ 0 ∨ s.delay ≤ 0 ∨ s.backoff ≤ 1 →
      backoff (α := α) s = Except.error ExcKind.valueError) ∧
    (∀ (s : Settings), 0 < s.max_tries → 0 < s.delay → 1 < s.backoff →
      backoff (α := α) s = Except.ok (fun f => backoffRun s f)) := by
  constructor
  · intro s h
    unfold backoff
    split_ifs with h1 h2 h3
    · rfl
    · rfl
    · rfl
    · rcases h with h | h | h <;> omega
  · intro s h1 h2 h3
    unfold backoff
    rw [if_neg (by omega), if_neg (by omega), if_neg (by omega)]

/-- Witness for C8 on concrete inputs: a `max_tries = 0` configuration is
rejected with `ValueError`; the default `RetrySettings` are accepted. -/
theorem claim_C8_policy_validation_witness :
    backoff (α := Nat) badSettings = Except.error ExcKind.valueError ∧
    backoff (α := Nat) RetrySettings =
      Except.ok (fun f => backoffRun RetrySettings f) :=
  ⟨(claim_C8_policy_validation Nat).1 badSettings (Or.inl (by decide)),
   (claim_C8_policy_validation Nat).2 RetrySettings (by decide) (by decide)
     (by decide)⟩

/-- Counterexample to C1 as stated: on a writable socket whose `send`
accepts zero bytes of a one-byte payload, `_raw_write` raises — but the
exception's kind is `RuntimeError` (the default `exctype` of
`_raise_with_details`), which is NOT a member of the retryable kinds of
`RetrySettings`. -/
theorem claim_C1_counterexample :
    kindOf (raw_write envZeroSend 1 (initSt connC)) =
      some ExcKind.runtimeError ∧
    ExcKind.runtimeError ∉ RetrySettings.exceptions := by
  refine ⟨?_, by decide⟩
  have h1 : assert_writable envZeroSend (initSt connC) =
      Res.ok () { initSt connC with nPollW := 1, pollLog := [some 0] } := rfl
  simp only [raw_write, h1]
  rw [writeLoop]
  simp [envZeroSend, kindOf, NetError.kind]

/-- C1 (amended): a send call transmitting zero bytes while data remains
makes `_raw_write` raise a connection-broken failure of kind
`RuntimeError`, which is NOT in the configured retryable kinds, so the
surrounding retry wrapper re-raises it immediately after a single
invocation instead of retrying. -/
theorem claim_C1_amended (env : NetEnv) (st s1 : St) (dataLen : Nat)
    (hready : assert_writable env st = Res.ok () s1)
    (hpos : 0 < dataLen)
    (hzero : env.sendAt s1.nSend dataLen = 0) :
    raw_write env dataLen st =
      Res.err (NetError.runtimeErr (mkDetails s1.conn))
        { s1 with nSend := s1.nSend + 1 } ∧
    (NetError.runtimeErr (mkDetails s1.conn)).kind ∉ RetrySettings.exceptions ∧
    backoffRun RetrySettings
        (fun _ => (Outcome.err (NetError.runtimeErr (mkDetails s1.conn)).kind :
          Outcome Nat)) =
      (RunOutcome.raised ExcKind.runtimeError, 1, []) := by
  refine ⟨?_, (by decide : ExcKind.runtimeError ∉ RetrySettings.exceptions),
    ?_⟩
  · simp only [raw_write, hready]
    rw [writeLoop, dif_pos hpos]
    simp only [Nat.sub_zero]
    rw [dif_pos hzero]
  · exact backoff_nonretry RetrySettings _ ExcKind.runtimeError rfl (by decide)
      (by decide)

/-- Witness for C1 (amended) on concrete inputs: a two-byte payload whose
first send accepts nothing raises `RuntimeError`, a non-retryable kind
that the wrapper propagates after one invocation. -/
theorem claim_C1_amended_witness :
    kindOf (raw_write envZeroSend 2 (initSt connC)) =
      some ExcKind.runtimeError ∧
    ExcKind.runtimeError ∉ RetrySettings.exceptions ∧
    backoffRun RetrySettings
        (fun _ => (Outcome.err ExcKind.runtimeError : Outcome Nat)) =
      (RunOutcome.raised ExcKind.runtimeError, 1, []) := by
  have h := claim_C1_amended envZeroSend (initSt connC)
    { initSt connC with nPollW := 1, pollLog := [some 0] } 2 rfl (by decide)
    rfl
  refine ⟨?_, h.2.1, h.2.2⟩
  rw [h.1]
  rfl

/-- Counterexample to C2 as stated: with both writability polls reporting
not-ready, `NonWritableSocketError` is raised after TWO completed
reconnects, not exactly one. -/
theorem claim_C2_counterexample :
    kindOf (assert_writable envNeverReady (initSt connC)) =
      some ExcKind.nonWritableSocketError ∧
    reconnectsOf (assert_writable envNeverReady (initSt connC)) = 2 ∧
    reconnectsOf (assert_writable envNeverReady (initSt connC)) ≠ 1 := by
  decide

/-- C2 (amended): for a readiness check on a connected object in which
both permitted polls report not-ready (releases and connects succeeding),
exactly TWO reconnects — one after each failed poll — are performed before
`NonWritableSocketError` / `NonReadableSocketError` is raised, and the
raised failure carries host, port, address family and socket type in its
diagnostic context. -/
theorem claim_C2_amended (env : NetEnv) (st : St) (a : Nat)
    (hsock : st.conn.socket = some a)
    (hs0 : env.shutdownOk st.nShut = true)
    (hs1 : env.shutdownOk (st.nShut + 1) = true)
    (hc0 : env.connectOk st.nConn = true)
    (hc1 : env.connectOk (st.nConn + 1) = true) :
    (env.writableAt st.nPollW = false →
      env.writableAt (st.nPollW + 1) = false →
      ∃ d s', assert_writable env st = Res.err (NetError.nonWritable d) s' ∧
        s'.reconnects = st.reconnects + 2 ∧
        d.host = st.conn.host_name ∧ d.port = st.conn.port_number ∧
        d.family = st.conn.address_family ∧
        d.sockType = st.conn.socket_type) ∧
    (env.readableAt st.nPollR = false →
      env.readableAt (st.nPollR + 1) = false →
      ∃ d s', assert_readable env st = Res.err (NetError.nonReadable d) s' ∧
        s'.reconnects = st.reconnects + 2 ∧
        d.host = st.conn.host_name ∧ d.port = st.conn.port_number ∧
        d.family = st.conn.address_family ∧
        d.sockType = st.conn.socket_type) := by
  constructor
  · intro hw0 hw1
    exact ⟨_, _,
      assert_writable_bothfail env st a hsock hw0 hw1 hs0 hs1 hc0 hc1,
      rfl, rfl, rfl, rfl, rfl⟩
  · intro hr0 hr1
    exact ⟨_, _,
      assert_readable_bothfail env st a hsock hr0 hr1 hs0 hs1 hc0 hc1,
      rfl, rfl, rfl, rfl, rfl⟩

/-- Witness for C2 (amended) on concrete inputs: both polls not-ready on
the concrete connection yields the not-writable raise after two
reconnects, with the details populated from the connection. -/
theorem claim_C2_amended_witness :
    ∃ d s', assert_writable envNeverReady (initSt connC) =
        Res.err (NetError.nonWritable d) s' ∧
      s'.reconnects = (initSt connC).reconnects + 2 ∧
      d.host = (initSt connC).conn.host_name ∧
      d.port = (initSt connC).conn.port_number ∧
      d.family = (initSt connC).conn.address_family ∧
      d.sockType = (initSt connC).conn.socket_type :=
  (claim_C2_amended envNeverReady (initSt connC) 0 rfl rfl rfl rfl rfl).1
    rfl rfl

/-- C6: whenever the readiness check passes and the transport accepts, at
each send call, an arbitrary positive number of at most the remaining
bytes, `_raw_write` loops issuing sends until the cumulative bytes sent
equal the payload size exactly, and then returns successfully. -/
theorem claim_C6_write_completeness (env : NetEnv) (st s1 : St)
    (dataLen : Nat)
    (hready : assert_writable env st = Res.ok () s1)
    (hsend : ∀ i r, 0 < r → 0 < env.sendAt i r ∧ env.sendAt i r ≤ r) :
    ∃ s', raw_write env dataLen st = Res.ok () s' ∧
      s'.sentTotal = s1.sentTotal + dataLen := by
  obtain ⟨s', heq, hsent⟩ :=
    writeLoop_complete env dataLen hsend dataLen 0 s1 (by omega) (by omega)
  refine ⟨s', ?_, ?_⟩
  · simp only [raw_write, hready, heq]
  · simpa using hsent

/-- Witness for C6 on concrete inputs: a three-byte payload against a
transport accepting one byte per send is written fully, three bytes
cumulatively. -/
theorem claim_C6_write_completeness_witness :
    ∃ s', raw_write envByteSend 3 (initSt connC) = Res.ok () s' ∧
      s'.sentTotal = 0 + 3 :=
  claim_C6_write_completeness envByteSend (initSt connC)
    { initSt connC with nPollW := 1, pollLog := [some 0] } 3 rfl
    (fun _ _ h => ⟨Nat.one_pos, h⟩)

/-- C7: `_raw_read` never propagates an exception: it returns the bytes of
the single `recv` when the `try` body succeeds, and the empty result when
anything in the body (readiness check or receive) raises. -/
theorem claim_C7_read_swallows (env : NetEnv) (s : St) :
    ∃ v s', raw_read env s = Res.ok v s' ∧
      (raw_read_body env s = Res.ok v s' ∨
        (v = [] ∧ ∃ e, raw_read_body env s = Res.err e s')) := by
  unfold raw_read
  cases h : raw_read_body env s with
  | ok v s1 => exact ⟨v, s1, rfl, Or.inl rfl⟩
  | err e s1 => exact ⟨[], s1, rfl, Or.inr ⟨rfl, e, rfl⟩⟩

/-- C9: destruction calls `_raw_release` and, per Python destructor
semantics, no exception escapes: the result is a normal return for every
prior state and every OS behaviour, and when the release path can run
(already disconnected, or shutdown/close succeeding) the handle is
cleared. -/
theorem claim_C9_del_swallows (env : NetEnv) (s : St) :
    ∃ s', del_conn env s = Res.ok () s' ∧
      ((s.conn.socket = none ∨ env.shutdownOk s.nShut = true) →
        s'.conn.socket = none) := by
  cases h : s.conn.socket with
  | none =>
    refine ⟨s, ?_, fun _ => h⟩
    simp [del_conn, raw_release, h]
  | some x =>
    by_cases hs : env.shutdownOk s.nShut
    · refine ⟨{ s with nShut := s.nShut + 1
                     , conn := { s.conn with socket := none } },
        ?_, fun _ => rfl⟩
      simp [del_conn, raw_release, h, hs]
    · refine ⟨{ s with nShut := s.nShut + 1 }, ?_, ?_⟩
      · simp [del_conn, raw_release, h, hs]
      · intro hor
        rcases hor with h0 | h0
        · exact absurd h0 (by simp)
        · exact absurd h0 hs

/-- Witness for C9 on concrete inputs: destroying the concrete connected
object with a succeeding shutdown returns normally with the handle
cleared; with a failing shutdown it still returns normally. -/
theorem claim_C9_del_swallows_witness :
    (∃ s', del_conn envNeverReady (initSt connC) = Res.ok () s' ∧
      s'.conn.socket = none) ∧
    (∃ s'', del_conn envShutFail (initSt connC) = Res.ok () s'') := by
  constructor
  · obtain ⟨s', h1, h2⟩ := claim_C9_del_swallows envNeverReady (initSt connC)
    exact ⟨s', h1, h2 (Or.inr rfl)⟩
  · obtain ⟨s'', h1, _⟩ := claim_C9_del_swallows envShutFail (initSt connC)
    exact ⟨s'', h1⟩

/-- C10: when a readiness check raises after both polls report not-ready,
a reconnect ran after the final failed poll as well, so at the moment of
the raise the connection holds a freshly created, newly connected handle:
the socket field is the second fresh identity, distinct from the handle
the last poll was performed on (the first fresh identity, as the poll log
shows), and it is what the raised details carry. -/
theorem claim_C10_fresh_handle_on_raise (env : NetEnv) (st : St) (a : Nat)
    (hsock : st.conn.socket = some a)
    (hs0 : env.shutdownOk st.nShut = true)
    (hs1 : env.shutdownOk (st.nShut + 1) = true)
    (hc0 : env.connectOk st.nConn = true)
    (hc1 : env.connectOk (st.nConn + 1) = true) :
    (env.writableAt st.nPollW = false →
      env.writableAt (st.nPollW + 1) = false →
      ∃ d s', assert_writable env st = Res.err (NetError.nonWritable d) s' ∧
        s'.conn.socket = some (st.nextId + 1) ∧
        d.socket = some (st.nextId + 1) ∧
        s'.pollLog = st.pollLog ++ [some a, some st.nextId] ∧
        some (st.nextId + 1) ≠ some st.nextId) ∧
    (env.readableAt st.nPollR = false →
      env.readableAt (st.nPollR + 1) = false →
      ∃ d s', assert_readable env st = Res.err (NetError.nonReadable d) s' ∧
        s'.conn.socket = some (st.nextId + 1) ∧
        d.socket = some (st.nextId + 1) ∧
        s'.pollLog = st.pollLog ++ [some a, some st.nextId] ∧
        some (st.nextId + 1) ≠ some st.nextId) := by
  constructor
  · intro hw0 hw1
    refine ⟨_, _,
      assert_writable_bothfail env st a hsock hw0 hw1 hs0 hs1 hc0 hc1,
      rfl, rfl, rfl, ?_⟩
    simp
  · intro hr0 hr1
    refine ⟨_, _,
      assert_readable_bothfail env st a hsock hr0 hr1 hs0 hs1 hc0 hc1,
      rfl, rfl, rfl, ?_⟩
    simp

/-- Witness for C10 on concrete inputs: the concrete never-ready run
raises holding fresh handle 2, while the last poll was on handle 1. -/
theorem claim_C10_fresh_handle_on_raise_witness :
    ∃ d s', assert_writable envNeverReady (initSt connC) =
        Res.err (NetError.nonWritable d) s' ∧
      s'.conn.socket = some ((initSt connC).nextId + 1) ∧
      d.socket = some ((initSt connC).nextId + 1) ∧
      s'.pollLog = (initSt connC).pollLog ++
        [some 0, some (initSt connC).nextId] ∧
      some ((initSt connC).nextId + 1) ≠ some (initSt connC).nextId :=
  (claim_C10_fresh_handle_on_raise envNeverReady (initSt connC) 0 rfl rfl
    rfl rfl rfl).1 rfl rfl
